import Mathlib

/-!
Shallow embedding of the Onchain-summer-backend NFT record component:
the Mongoose schema and statics in `src/models/NFT.js` and the request
handlers in `src/controllers/nftController.js`.  The document store is
modelled as a list of records; handlers are pure functions from payload
and store state to a result and the new store state.
-/

namespace OnchainSummer

/-- JavaScript values as they appear in a JSON request body field.
`undefinedV` models an absent key. Numbers are modelled as integers
(the payloads in play carry no fractional values). -/
inductive JSValue where
  | nullV
  | undefinedV
  | boolV (b : Bool)
  | numV (n : Int)
  | strV (s : String)
deriving DecidableEq

/-- JavaScript truthiness: `!v` in `if (!walletAddress || ...)` is the
negation of this. `""`, `0`, `false`, `null`, `undefined` are falsy. -/
def JSValue.truthy : JSValue → Bool
  | .nullV => false
  | .undefinedV => false
  | .boolV b => b
  | .numV n => n != 0
  | .strV s => s != ""

/-- `v.toLowerCase()` succeeds only when `v` is a string; on any other
value JavaScript raises a TypeError, modelled by `none`. -/
def JSValue.asString? : JSValue → Option String
  | .strV s => some s
  | _ => none

/-- Mongoose's cast of a value to the String path type (used after the
controller's truthiness check, where null/undefined can no longer occur). -/
def JSValue.castToString : JSValue → String
  | .strV s => s
  | .numV n => toString n
  | .boolV b => if b then "true" else "false"
  | _ => ""

/-- `status` enum of the schema: `['pending', 'confirmed', 'failed']`. -/
inductive NFTStatus where
  | pending
  | confirmed
  | failed
deriving DecidableEq

/-- One stored NFT document, after Mongoose casting.  `mintedAt` and
`createdAt` are epoch milliseconds; `timestamps: true` sets `createdAt`. -/
structure NFTRecord where
  walletAddress : String
  ipfsCid : String
  metadataUri : String
  tokenId : String
  contractAddress : String
  transactionHash : String
  eventName : String
  mintedAt : Int
  networkChainId : Int
  imageUrl : String
  status : NFTStatus
  userAgent : String
  ipAddress : String
  createdAt : Int
deriving DecidableEq

/-- JavaScript's `String.prototype.toLowerCase()` on the ASCII strings in
play (addresses and hashes): lowercase each character. -/
def asciiLower (s : String) : String :=
  String.mk (s.data.map Char.toLower)

/-- ASCII hex digit, as in the character class `[a-fA-F0-9]`. -/
def isHexDigit (c : Char) : Bool :=
  c.isDigit || (('a' ≤ c) && (c ≤ 'f')) || (('A' ≤ c) && (c ≤ 'F'))

/-- ASCII alphanumeric, as in the character class `[a-zA-Z0-9]`. -/
def isAlnum (c : Char) : Bool :=
  c.isAlpha || c.isDigit

/-- `/^0x[a-fA-F0-9]{40}$/` (Ethereum address pattern). -/
def isEthAddress (s : String) : Bool :=
  match s.data with
  | '0' :: 'x' :: rest => rest.length == 40 && rest.all isHexDigit
  | _ => false

/-- `/^0x[a-fA-F0-9]{64}$/` (transaction hash pattern). -/
def isTxHash (s : String) : Bool :=
  match s.data with
  | '0' :: 'x' :: rest => rest.length == 64 && rest.all isHexDigit
  | _ => false

/-- `/^Qm[a-zA-Z0-9]{44}$/` (IPFS CID pattern). -/
def isIpfsCid (s : String) : Bool :=
  match s.data with
  | 'Q' :: 'm' :: rest => rest.length == 44 && rest.all isAlnum
  | _ => false

/-- `/^ipfs:\/\/Qm[a-zA-Z0-9]{44}$/` (metadata URI pattern). -/
def isMetadataUri (s : String) : Bool :=
  match s.data with
  | 'i' :: 'p' :: 'f' :: 's' :: ':' :: '/' :: '/' :: rest =>
    isIpfsCid (String.mk rest)
  | _ => false

/-- The `imageUrl` validator
`/^https:\/\/.*\.pinata\.cloud\/ipfs\/Qm[a-zA-Z0-9]{44}$/`, which also
accepts an absent value (`!v ||`). The greedy `.*` reduces to: the string
ends in `.pinata.cloud/ipfs/` followed by a CID and starts with `https://`
(the CID part is alphanumeric, so the decomposition is unique). -/
def validImageUrl (s : String) : Bool :=
  s == "" ||
    ("https://".data.isPrefixOf s.data &&
     ".pinata.cloud/ipfs/".data.isSuffixOf (s.data.take (s.data.length - 46)) &&
     isIpfsCid (String.mk (s.data.drop (s.data.length - 46))))

/-- The single allowed `eventData.eventName` enum value and its default. -/
def defaultEventName : String := "Onchain Summer Lagos"

/-- The schema-level validation of a new document (run by `save()` after
the lowercase setters): the list of paths that fail `required`, `match`,
`enum` or the `imageUrl` validator. `required` on a Mongoose String path
also rejects the empty string, which every `match` pattern here rejects
anyway; `tokenId` has only `required`. `eventData.mintedAt` is always set
by the controller and cannot fail. -/
def validationErrors (r : NFTRecord) : List String :=
  (if !isEthAddress r.walletAddress then ["walletAddress"] else []) ++
  (if !isIpfsCid r.ipfsCid then ["ipfsCid"] else []) ++
  (if !isMetadataUri r.metadataUri then ["metadataUri"] else []) ++
  (if r.tokenId == "" then ["tokenId"] else []) ++
  (if !isEthAddress r.contractAddress then ["contractAddress"] else []) ++
  (if !isTxHash r.transactionHash then ["transactionHash"] else []) ++
  (if !(r.eventName == defaultEventName) then ["eventData.eventName"] else []) ++
  (if !(r.networkChainId == 8453 || r.networkChainId == 84532) then ["networkChainId"] else []) ++
  (if !validImageUrl r.imageUrl then ["imageUrl"] else [])

/-- `getUserNFTCount` static: `countDocuments({ walletAddress:
walletAddress.toLowerCase(), status: 'confirmed' })`. -/
def getUserNFTCount (store : List NFTRecord) (walletAddress : String) : Nat :=
  (store.filter fun r =>
    r.walletAddress == asciiLower walletAddress && r.status == .confirmed).length

/-- One row of the `getEventStats` aggregation output. -/
structure EventStat where
  eventName : String
  totalMints : Nat
  uniqueUserCount : Nat
  firstMint : Int
  lastMint : Int
deriving DecidableEq

/-- `$min` over the `mintedAt` values of a (nonempty) group. -/
def listMin : List Int → Int
  | [] => 0
  | x :: xs => xs.foldl min x

/-- `$max` over the `mintedAt` values of a (nonempty) group. -/
def listMax : List Int → Int
  | [] => 0
  | x :: xs => xs.foldl max x

/-- `getEventStats` static: `$match status confirmed`, `$group` by
`eventData.eventName` with `$sum 1`, `$addToSet walletAddress` (projected
through `$size`), `$min`/`$max` of `mintedAt`. Group keys are the distinct
event names of the confirmed records; the set size is the number of
distinct wallet addresses in the group. -/
def getEventStats (store : List NFTRecord) : List EventStat :=
  let confirmed := store.filter fun r => r.status == .confirmed
  let names := (confirmed.map fun r => r.eventName).dedup
  names.map fun name =>
    let group := confirmed.filter fun r => r.eventName == name
    { eventName := name
      totalMints := group.length
      uniqueUserCount := ((group.map fun r => r.walletAddress).dedup).length
      firstMint := listMin (group.map fun r => r.mintedAt)
      lastMint := listMax (group.map fun r => r.mintedAt) }

/-- The `eventData` object of a save payload: both fields optional
(`eventData?.eventName`, `eventData?.mintedAt`). -/
structure EventDataPayload where
  eventName : Option String
  mintedAt : Option Int
deriving DecidableEq

/-- The JSON body of `POST /api/nfts`, as destructured by `saveNFT`,
together with the request metadata the controller reads
(`req.get('User-Agent')`, `req.ip`). -/
structure SavePayload where
  walletAddress : JSValue
  ipfsCid : JSValue
  metadataUri : JSValue
  tokenId : JSValue
  contractAddress : JSValue
  transactionHash : JSValue
  eventData : Option EventDataPayload
  userAgent : String
  ipAddress : String
deriving DecidableEq

/-- `eventData?.eventName || 'Onchain Summer Lagos'`: the default applies
when `eventData` or its field is absent, and also when the name is the
empty string (JavaScript `||` tests truthiness). -/
def resolveEventName (ed : Option EventDataPayload) : String :=
  match ed with
  | none => defaultEventName
  | some d =>
    match d.eventName with
    | none => defaultEventName
    | some s => if s == "" then defaultEventName else s

/-- `eventData?.mintedAt ? new Date(eventData.mintedAt) : new Date()`:
epoch 0 is falsy in JavaScript, so it also falls back to `now`. -/
def resolveMintedAt (ed : Option EventDataPayload) (now : Int) : Int :=
  match ed with
  | none => now
  | some d =>
    match d.mintedAt with
    | none => now
    | some t => if t == 0 then now else t

/-- The fixed list the controller reports on a missing-fields failure
(`required: [...]` in the 400 response body). -/
def requiredFields : List String :=
  ["walletAddress", "ipfsCid", "metadataUri", "tokenId", "contractAddress",
   "transactionHash"]

/-- The Pinata gateway URL the controller builds from the payload's CID. -/
def pinataUrlOf (cid : String) : String :=
  "https://gateway.pinata.cloud/ipfs/" ++ cid

/-- All possible outcomes of the `saveNFT` handler, in source order:
400 missing fields, 409 pre-check hit, 400 `ValidationError`, 409 duplicate
key (code 11000), 201 saved (with the owner's confirmed count and
first-NFT flag), 500 catch-all. -/
inductive SaveResult where
  | missingFields (required : List String)
  | alreadyRecorded (existing : NFTRecord)
  | validationFailed (fields : List String)
  | duplicateKey
  | saved (record : NFTRecord) (userTotalNFTs : Nat) (isFirstNFT : Bool)
  | serverError
deriving DecidableEq

/-- The HTTP status code `saveNFT` sends for each outcome. -/
def SaveResult.httpStatus : SaveResult → Nat
  | .missingFields _ => 400
  | .alreadyRecorded _ => 409
  | .validationFailed _ => 400
  | .duplicateKey => 409
  | .saved _ _ _ => 201
  | .serverError => 500

/-- The `success` flag of the JSON body `saveNFT` sends for each outcome. -/
def SaveResult.success : SaveResult → Bool
  | .saved _ _ _ => true
  | _ => false

/-- The document the controller assembles once the duplicate pre-check
passes (`tx` is the payload's transaction hash, already known to be a
string): gateway `imageUrl` from the CID, event-name and minted-at
defaults, `networkChainId`/`status` schema defaults, and the lowercase
setters of the schema and the pre-save hook applied to the wallet,
contract and transaction fields. `createdAt` comes from
`timestamps: true`. -/
def mkRecordFromPayload (p : SavePayload) (tx : String) (now : Int) :
    NFTRecord :=
  { walletAddress := asciiLower (p.walletAddress.castToString)
    ipfsCid := p.ipfsCid.castToString
    metadataUri := p.metadataUri.castToString
    tokenId := p.tokenId.castToString
    contractAddress := asciiLower (p.contractAddress.castToString)
    transactionHash := asciiLower tx
    eventName := resolveEventName p.eventData
    mintedAt := resolveMintedAt p.eventData now
    networkChainId := 8453
    imageUrl := pinataUrlOf (p.ipfsCid.castToString)
    status := .confirmed
    userAgent := p.userAgent
    ipAddress := p.ipAddress
    createdAt := now }

/-- The `saveNFT` controller over a store state, returning the response
outcome and the new store state.  Stages, as in the source: truthiness
check of the six required fields; duplicate pre-check by
`findOne({ transactionHash: transactionHash.toLowerCase() })` (the
`.toLowerCase()` call raises a TypeError on a non-string, caught by the
catch-all); document construction (`mkRecordFromPayload`); schema
validation; unique-index insert; then `getUserNFTCount(walletAddress)` on
the raw payload value, whose `.toLowerCase()` likewise raises after the
insert if it is not a string. -/
def saveNFT (store : List NFTRecord) (p : SavePayload) (now : Int) :
    SaveResult × List NFTRecord :=
  if !(p.walletAddress.truthy && p.ipfsCid.truthy && p.metadataUri.truthy &&
       p.tokenId.truthy && p.contractAddress.truthy &&
       p.transactionHash.truthy) then
    (.missingFields requiredFields, store)
  else
    match p.transactionHash.asString? with
    | none => (.serverError, store)
    | some tx =>
      match store.find? (fun r => r.transactionHash == asciiLower tx) with
      | some existing => (.alreadyRecorded existing, store)
      | none =>
        if validationErrors (mkRecordFromPayload p tx now) ≠ [] then
          (.validationFailed (validationErrors (mkRecordFromPayload p tx now)),
           store)
        else if store.any (fun r =>
            r.transactionHash == (mkRecordFromPayload p tx now).transactionHash) then
          (.duplicateKey, store)
        else
          match p.walletAddress.asString? with
          | none => (.serverError, store ++ [mkRecordFromPayload p tx now])
          | some wa =>
            (.saved (mkRecordFromPayload p tx now)
              (getUserNFTCount (store ++ [mkRecordFromPayload p tx now]) wa)
              (getUserNFTCount (store ++ [mkRecordFromPayload p tx now]) wa == 1),
             store ++ [mkRecordFromPayload p tx now])

/-- A stored record as returned to readers: `.select('-userAgent
-ipAddress')` strips the two analytics fields. -/
structure PublicNFT where
  walletAddress : String
  ipfsCid : String
  metadataUri : String
  tokenId : String
  contractAddress : String
  transactionHash : String
  eventName : String
  mintedAt : Int
  networkChainId : Int
  imageUrl : String
  status : NFTStatus
  createdAt : Int
deriving DecidableEq

/-- Projection applied by the `-userAgent -ipAddress` select. -/
def NFTRecord.toPublic (r : NFTRecord) : PublicNFT :=
  { walletAddress := r.walletAddress
    ipfsCid := r.ipfsCid
    metadataUri := r.metadataUri
    tokenId := r.tokenId
    contractAddress := r.contractAddress
    transactionHash := r.transactionHash
    eventName := r.eventName
    mintedAt := r.mintedAt
    networkChainId := r.networkChainId
    imageUrl := r.imageUrl
    status := r.status
    createdAt := r.createdAt }

/-- A record as it appears in the list response, with the three computed
fields the controller spreads onto it. -/
structure EnrichedNFT where
  record : PublicNFT
  pinataImageUrl : String
  blockExplorerUrl : String
  daysAgo : Int
deriving DecidableEq

/-- The enrichment map of `getUserNFTs`: gateway URL from the CID,
explorer URL by chain id (8453 is Base mainnet, anything else gets the
Sepolia testnet host), and `Math.floor((Date.now() - mintedAt) / day)`
(`Int.fdiv` is floor division, matching `Math.floor`). -/
def enrichNFT (now : Int) (r : PublicNFT) : EnrichedNFT :=
  { record := r
    pinataImageUrl := pinataUrlOf r.ipfsCid
    blockExplorerUrl :=
      if r.networkChainId == 8453 then
        "https://basescan.org/tx/" ++ r.transactionHash
      else
        "https://sepolia.basescan.org/tx/" ++ r.transactionHash
    daysAgo := Int.fdiv (now - r.mintedAt) 86400000 }

/-- Stable insertion of a record into a createdAt-descending list. -/
def insertByCreatedAt (r : NFTRecord) : List NFTRecord → List NFTRecord
  | [] => [r]
  | x :: xs =>
    if x.createdAt ≤ r.createdAt then r :: x :: xs
    else x :: insertByCreatedAt r xs

/-- `.sort({ createdAt: -1 })`: most recent first. -/
def sortByCreatedAtDesc (l : List NFTRecord) : List NFTRecord :=
  l.foldr insertByCreatedAt []

/-- The confirmed records of one (lowercased) owner, as selected by the
`find`/`countDocuments` filter `{ walletAddress: walletAddress.toLowerCase(),
status: 'confirmed' }`. -/
def ownerConfirmed (store : List NFTRecord) (walletAddress : String) :
    List NFTRecord :=
  store.filter fun r =>
    r.walletAddress == asciiLower walletAddress && r.status == .confirmed

/-- The `pagination` object of the list response. -/
structure Pagination where
  currentPage : Nat
  totalPages : Nat
  totalCount : Nat
  hasNextPage : Bool
  hasPrevPage : Bool
  limit : Nat
deriving DecidableEq

/-- Outcomes of the `getUserNFTs` handler: 400 on a malformed wallet
address, otherwise 200 with the enriched page and pagination metadata. -/
inductive ListResult where
  | invalidAddress
  | ok (nfts : List EnrichedNFT) (pagination : Pagination)
deriving DecidableEq

/-- HTTP status of a list outcome. -/
def ListResult.httpStatus : ListResult → Nat
  | .invalidAddress => 400
  | .ok _ _ => 200

/-- The `getUserNFTs` controller.  `page` and `limit` arrive already
parsed (`parseInt(...) || default`); the address-format test runs before
any store query; the page is the confirmed records of the owner sorted
createdAt-descending, after `skip((page-1)*limit)` and `limit(limit)`;
`totalPages = Math.ceil(totalCount / limit)`. -/
def getUserNFTs (store : List NFTRecord) (walletAddress : String)
    (page limit : Nat) (now : Int) : ListResult :=
  let skip := (page - 1) * limit
  if !isEthAddress walletAddress then .invalidAddress
  else
    let nfts :=
      (((sortByCreatedAtDesc (ownerConfirmed store walletAddress)).drop
        skip).take limit).map NFTRecord.toPublic
    let totalCount := getUserNFTCount store walletAddress
    let totalPages := (totalCount + limit - 1) / limit
    .ok (nfts.map (enrichNFT now))
      { currentPage := page
        totalPages := totalPages
        totalCount := totalCount
        hasNextPage := decide (page < totalPages)
        hasPrevPage := decide (1 < page)
        limit := limit }

/-- The grand-total envelope of the stats handler. -/
structure TotalStats where
  totalMints : Nat
  totalUniqueUsers : Nat
  events : List EventStat
deriving DecidableEq

/-- The `getEventStats` controller: starts from zero totals and adds each
group's `totalMints` and `uniqueUserCount`. -/
def getEventStatsHandler (store : List NFTRecord) : TotalStats :=
  let stats := getEventStats store
  { totalMints := stats.foldl (fun acc e => acc + e.totalMints) 0
    totalUniqueUsers := stats.foldl (fun acc e => acc + e.uniqueUserCount) 0
    events := stats }

/-! ## Concrete fixtures used by the witnesses -/

/-- A well-formed wallet address (lowercase). -/
def addrA : String := "0xaaaaaaaaaaaaaaaaaaaaaaaaaaaaaaaaaaaaaaaa"

/-- The same address with uppercase hex letters. -/
def addrAUp : String := "0xAAAAAAAAAAAAAAAAAAAAAAAAAAAAAAAAAAAAAAAA"

/-- A well-formed IPFS CID. -/
def cidA : String := "Qmaaaaaaaaaaaaaaaaaaaaaaaaaaaaaaaaaaaaaaaaaaaa"

/-- A well-formed transaction hash (lowercase). -/
def txA : String :=
  "0xaaaaaaaaaaaaaaaaaaaaaaaaaaaaaaaaaaaaaaaaaaaaaaaaaaaaaaaaaaaaaaaa"

/-- The same transaction hash with uppercase hex letters. -/
def txAUp : String :=
  "0xAAAAAAAAAAAAAAAAAAAAAAAAAAAAAAAAAAAAAAAAAAAAAAAAAAAAAAAAAAAAAAAA"

/-- A fully valid save payload carrying uppercase address and hash forms. -/
def demoPayload : SavePayload :=
  { walletAddress := .strV addrAUp
    ipfsCid := .strV cidA
    metadataUri := .strV ("ipfs://" ++ cidA)
    tokenId := .strV "1"
    contractAddress := .strV addrAUp
    transactionHash := .strV txAUp
    eventData := none
    userAgent := "ua"
    ipAddress := "ip" }

/-- The record `saveNFT [] demoPayload 1000` persists: all three
address/hash fields lowercased, defaults filled in. -/
def demoSaved : NFTRecord :=
  { walletAddress := addrA
    ipfsCid := cidA
    metadataUri := "ipfs://" ++ cidA
    tokenId := "1"
    contractAddress := addrA
    transactionHash := txA
    eventName := defaultEventName
    mintedAt := 1000
    networkChainId := 8453
    imageUrl := pinataUrlOf cidA
    status := .confirmed
    userAgent := "ua"
    ipAddress := "ip"
    createdAt := 1000 }

/-- The i-th of a family of confirmed records for owner `addrA`, with
`createdAt = i`. -/
def mkRec (i : Nat) : NFTRecord :=
  { demoSaved with
    tokenId := toString i
    mintedAt := (i : Int)
    createdAt := (i : Int)
    userAgent := ""
    ipAddress := "" }

/-- Fifteen confirmed records for owner `addrA`, created at times 0..14. -/
def store15 : List NFTRecord := (List.range 15).map mkRec

/-- A payload whose only defect is an absent `walletAddress`. -/
def payloadNoWallet : SavePayload :=
  { demoPayload with walletAddress := .undefinedV }

/-- A payload whose `ipfsCid` is present but is the empty string. -/
def payloadEmptyCid : SavePayload :=
  { demoPayload with ipfsCid := .strV "" }

/-- A payload whose `transactionHash` is present and truthy but is a
JSON number rather than a string. -/
def payloadNumericTx : SavePayload :=
  { demoPayload with transactionHash := .numV 123 }

/-! ## C7 — malformed owner address fails before any store access -/

/-- C7: for every list-by-owner request whose owner address does not match
`0x` + 40 hex characters, the handler answers the invalid-format outcome
(HTTP 400), and it does so identically for every store state — no store
query influences the response. -/
theorem c7_invalid_address_rejected_without_store
    (walletAddress : String) (page limit : Nat) (now : Int)
    (h : isEthAddress walletAddress = false) :
    ∀ store : List NFTRecord,
      getUserNFTs store walletAddress page limit now = .invalidAddress ∧
      (getUserNFTs store walletAddress page limit now).httpStatus = 400 := by
  intro store
  have hmain : getUserNFTs store walletAddress page limit now = .invalidAddress := by
    simp [getUserNFTs, h]
  exact ⟨hmain, by rw [hmain]; rfl⟩

/-- C7 witness: the spec's own example `"not-an-address"`, against the
fifteen-record store. -/
theorem c7_witness :
    getUserNFTs store15 "not-an-address" 1 10 0 = .invalidAddress ∧
    (getUserNFTs store15 "not-an-address" 1 10 0).httpStatus = 400 :=
  c7_invalid_address_rejected_without_store "not-an-address" 1 10 0
    (by decide) store15

/-! ## C4 — non-confirmed records contribute to no read operation -/

/-- C4: a record whose status is not `confirmed` contributes to none of
the three read operations: prepending it to a store changes neither the
owner count, nor the owner listing, nor the event statistics. -/
theorem c4_nonconfirmed_invisible (r : NFTRecord) (store : List NFTRecord)
    (h : r.status ≠ NFTStatus.confirmed) :
    (∀ a, getUserNFTCount (r :: store) a = getUserNFTCount store a) ∧
    (∀ a page limit now,
      getUserNFTs (r :: store) a page limit now =
        getUserNFTs store a page limit now) ∧
    getEventStats (r :: store) = getEventStats store := by
  have hb : (r.status == NFTStatus.confirmed) = false := by
    simpa using h
  have hcount : ∀ a, getUserNFTCount (r :: store) a = getUserNFTCount store a := by
    intro a
    simp [getUserNFTCount, List.filter_cons, hb]
  have howner : ∀ a, ownerConfirmed (r :: store) a = ownerConfirmed store a := by
    intro a
    simp [ownerConfirmed, List.filter_cons, hb]
  refine ⟨hcount, ?_, ?_⟩
  · intro a page limit now
    simp [getUserNFTs, howner, hcount]
  · simp [getEventStats, List.filter_cons, hb]

/-- C4 witness: a pending copy of a record, prepended to the
fifteen-record store, is invisible to all three reads. -/
theorem c4_witness :
    getUserNFTCount ({ demoSaved with status := .pending } :: store15) addrA
      = getUserNFTCount store15 addrA ∧
    getUserNFTs ({ demoSaved with status := .pending } :: store15) addrA 1 10 0
      = getUserNFTs store15 addrA 1 10 0 ∧
    getEventStats ({ demoSaved with status := .pending } :: store15)
      = getEventStats store15 :=
  ⟨(c4_nonconfirmed_invisible { demoSaved with status := .pending } store15
      (by decide)).1 addrA,
   (c4_nonconfirmed_invisible { demoSaved with status := .pending } store15
      (by decide)).2.1 addrA 1 10 0,
   (c4_nonconfirmed_invisible { demoSaved with status := .pending } store15
      (by decide)).2.2⟩

/-! ## C2 — the missing-fields error reports a fixed list, not the absent
subset -/

/-- C2 counterexample: a payload missing only `walletAddress` is rejected
with a field list that also names `ipfsCid`, a field that is present —
so the reported list is not "exactly the set of absent fields". -/
theorem c2_counterexample :
    (saveNFT store15 payloadNoWallet 0).1 = .missingFields requiredFields ∧
    payloadNoWallet.ipfsCid.truthy = true ∧
    "ipfsCid" ∈ requiredFields ∧
    requiredFields ≠ ["walletAddress"] := by
  decide

/-- C2 as amended: when any required field is missing (falsy), the
handler fails with the missing-fields error whose reported list is the
fixed list of all six required field names, and the store is untouched
(the same response for every store state, which is returned unchanged). -/
theorem c2_missing_fields_fixed_list (p : SavePayload) (now : Int)
    (h : (p.walletAddress.truthy && p.ipfsCid.truthy && p.metadataUri.truthy &&
          p.tokenId.truthy && p.contractAddress.truthy &&
          p.transactionHash.truthy) = false) :
    ∀ store : List NFTRecord,
      saveNFT store p now = (.missingFields requiredFields, store) := by
  intro store
  simp [saveNFT, h]

/-- C2 witness: the payload missing only `walletAddress`. -/
theorem c2_witness :
    saveNFT store15 payloadNoWallet 0 = (.missingFields requiredFields, store15) :=
  c2_missing_fields_fixed_list payloadNoWallet 0 (by decide) store15

/-! ## C9 — present-but-falsy required fields count as missing -/

/-- C9: a required field that is present but a falsy JSON value (empty
string, 0, false, or null) makes the handler reject the request with the
missing-fields error, leaving every store state untouched. -/
theorem c9_falsy_field_treated_missing (p : SavePayload) (now : Int)
    (v : JSValue)
    (hmem : v ∈ [p.walletAddress, p.ipfsCid, p.metadataUri, p.tokenId,
                 p.contractAddress, p.transactionHash])
    (hfalsy : v.truthy = false)
    (hpresent : v ≠ JSValue.undefinedV) :
    ∀ store : List NFTRecord,
      saveNFT store p now = (.missingFields requiredFields, store) := by
  intro store
  simp only [List.mem_cons, List.not_mem_nil, or_false] at hmem
  rcases hmem with h1 | h1 | h1 | h1 | h1 | h1 <;>
    · subst h1
      simp [saveNFT, hfalsy]

/-- C9 witness: `ipfsCid` present as the empty string. -/
theorem c9_witness :
    saveNFT store15 payloadEmptyCid 7 = (.missingFields requiredFields, store15) :=
  c9_falsy_field_treated_missing payloadEmptyCid 7 (JSValue.strV "")
    (by decide) (by decide) (by decide) store15

/-! ## C10 — truthy non-string transactionHash becomes a 500, not a 400 -/

/-- C10: when every required field is truthy but `transactionHash` is not
a string, the `.toLowerCase()` of the duplicate pre-check raises a
TypeError that the catch-all turns into the generic 500 outcome (not the
400 field-validation outcome), and the store is unchanged. -/
theorem c10_nonstring_hash_server_error (store : List NFTRecord)
    (p : SavePayload) (now : Int)
    (htruthy : (p.walletAddress.truthy && p.ipfsCid.truthy &&
      p.metadataUri.truthy && p.tokenId.truthy && p.contractAddress.truthy &&
      p.transactionHash.truthy) = true)
    (hnostr : p.transactionHash.asString? = none) :
    saveNFT store p now = (.serverError, store) ∧
    (saveNFT store p now).1.httpStatus = 500 ∧
    (saveNFT store p now).1.success = false ∧
    (saveNFT store p now).1.httpStatus ≠ 400 := by
  have hmain : saveNFT store p now = (.serverError, store) := by
    simp [saveNFT, htruthy, hnostr]
  refine ⟨hmain, ?_, ?_, ?_⟩ <;> rw [hmain] <;>
    simp [SaveResult.httpStatus, SaveResult.success]

/-- C10 witness: `transactionHash` sent as the JSON number `123`. -/
theorem c10_witness :
    saveNFT store15 payloadNumericTx 0 = (.serverError, store15) ∧
    (saveNFT store15 payloadNumericTx 0).1.httpStatus = 500 ∧
    (saveNFT store15 payloadNumericTx 0).1.success = false ∧
    (saveNFT store15 payloadNumericTx 0).1.httpStatus ≠ 400 :=
  c10_nonstring_hash_server_error store15 payloadNumericTx 0
    (by decide) (by decide)

set_option maxRecDepth 40000

/-- `asString?` succeeds exactly on string values. -/
theorem JSValue.asString?_eq_some {v : JSValue} {s : String} :
    v.asString? = some s ↔ v = .strV s := by
  cases v <;> simp [JSValue.asString?]

/-! ## C1 — duplicate transactionHash: 409 conflict, not a success shape -/

/-- C1 counterexample: re-submitting `demoPayload` (whose hash lowercases
to `demoSaved`'s) against a store already holding `demoSaved` produces the
pre-check outcome with `success = false` and HTTP 409 — an error shape,
not a success shape — even though the response does carry the
pre-existing record. -/
theorem c1_counterexample :
    (saveNFT [demoSaved] demoPayload 2000).1.success = false ∧
    (saveNFT [demoSaved] demoPayload 2000).1.httpStatus = 409 ∧
    (saveNFT [demoSaved] demoPayload 2000).1 = .alreadyRecorded demoSaved := by
  decide

/-- C1 as amended: for every save request whose payload passes the
required-field check and whose transactionHash (after lowercase
normalization) already has a stored record, the handler answers the 409
"NFT already recorded" outcome with `success = false`, carrying the
pre-existing record in its data —  an error-shaped response, not a
success-shaped one —  and the store is unchanged. -/
theorem c1_duplicate_is_conflict_with_existing (store : List NFTRecord)
    (p : SavePayload) (now : Int) (tx : String) (r : NFTRecord)
    (htruthy : (p.walletAddress.truthy && p.ipfsCid.truthy &&
      p.metadataUri.truthy && p.tokenId.truthy && p.contractAddress.truthy &&
      p.transactionHash.truthy) = true)
    (htx : p.transactionHash = .strV tx)
    (hfound : store.find? (fun q => q.transactionHash == asciiLower tx)
      = some r) :
    saveNFT store p now = (.alreadyRecorded r, store) ∧
    (saveNFT store p now).1.success = false ∧
    (saveNFT store p now).1.httpStatus = 409 := by
  have hmain : saveNFT store p now = (.alreadyRecorded r, store) := by
    unfold saveNFT
    rw [htruthy, htx]
    simp [JSValue.asString?, hfound]
  refine ⟨hmain, ?_, ?_⟩ <;> rw [hmain] <;> rfl

/-- C1 witness: the counterexample scenario, through the amended
theorem. -/
theorem c1_witness :
    saveNFT [demoSaved] demoPayload 2000 = (.alreadyRecorded demoSaved, [demoSaved]) ∧
    (saveNFT [demoSaved] demoPayload 2000).1.success = false ∧
    (saveNFT [demoSaved] demoPayload 2000).1.httpStatus = 409 :=
  c1_duplicate_is_conflict_with_existing [demoSaved] demoPayload 2000 txAUp
    demoSaved (by decide) rfl (by decide)

/-! ## C5 — lowercase normalization and case-insensitive identity -/

/-- C5: every record accepted for persistence stores `walletAddress`,
`contractAddress` and `transactionHash` lowercased (whatever case the
caller supplied); the new store is the old one with exactly that record
appended; a later save whose transaction hash lowercases to the stored
one is answered with the stored record by the duplicate pre-check; and
the owner count compares addresses after lowercasing, so two spellings of
one address that agree after lowercasing are the same owner. -/
theorem c5_lowercase_identity (store : List NFTRecord) (p : SavePayload)
    (now : Int) (r : NFTRecord) (cnt : Nat) (first : Bool)
    (store2 : List NFTRecord)
    (hsave : saveNFT store p now = (.saved r cnt first, store2)) :
    (r.walletAddress = asciiLower p.walletAddress.castToString ∧
     r.contractAddress = asciiLower p.contractAddress.castToString ∧
     (∃ tx, p.transactionHash = .strV tx ∧
        r.transactionHash = asciiLower tx)) ∧
    store2 = store ++ [r] ∧
    (∀ (q : SavePayload) (now2 : Int) (tx2 : String),
       q.transactionHash = .strV tx2 →
       asciiLower tx2 = r.transactionHash →
       (q.walletAddress.truthy && q.ipfsCid.truthy && q.metadataUri.truthy &&
        q.tokenId.truthy && q.contractAddress.truthy &&
        q.transactionHash.truthy) = true →
       (saveNFT store2 q now2).1 = .alreadyRecorded r) ∧
    (∀ (st : List NFTRecord) (a b : String), asciiLower a = asciiLower b →
       getUserNFTCount st a = getUserNFTCount st b) := by
  rw [saveNFT] at hsave
  split at hsave
  · exact absurd hsave (by simp)
  · split at hsave
    · exact absurd hsave (by simp)
    · rename_i tx htx
      split at hsave
      · exact absurd hsave (by simp)
      · rename_i hfind
        split at hsave
        · exact absurd hsave (by simp)
        · rename_i herrs
          split at hsave
          · exact absurd hsave (by simp)
          · rename_i hany
            split at hsave
            · exact absurd hsave (by simp)
            · rename_i wa hwa
              rw [Prod.mk.injEq, SaveResult.saved.injEq] at hsave
              obtain ⟨⟨hrec, _, _⟩, hstore⟩ := hsave
              subst hrec
              subst hstore
              refine ⟨⟨rfl, rfl, tx, JSValue.asString?_eq_some.mp htx, rfl⟩,
                rfl, ?_, ?_⟩
              · intro q now2 tx2 hq htx2 hqtruthy
                have hfind2 : (store ++ [mkRecordFromPayload p tx now]).find?
                    (fun x => x.transactionHash == asciiLower tx2)
                    = some (mkRecordFromPayload p tx now) := by
                  rw [List.find?_append]
                  have hstorenone : store.find?
                      (fun x => x.transactionHash == asciiLower tx2) = none := by
                    rw [htx2]
                    exact hfind
                  rw [hstorenone]
                  simp [List.find?_cons, htx2]
                have hrun : saveNFT (store ++ [mkRecordFromPayload p tx now]) q now2
                    = (.alreadyRecorded (mkRecordFromPayload p tx now),
                       store ++ [mkRecordFromPayload p tx now]) := by
                  unfold saveNFT
                  rw [hqtruthy, hq]
                  simp [JSValue.asString?, hfind2]
                rw [hrun]
              · intro st a b hab
                unfold getUserNFTCount
                rw [hab]

/-- C5 witness: saving `demoPayload` (uppercase hash and addresses) yields
the lowercased `demoSaved`; the uppercase respelling of the hash hits the
duplicate pre-check; the uppercase respelling of the owner address counts
the same records. -/
theorem c5_witness :
    (demoSaved.walletAddress
        = asciiLower demoPayload.walletAddress.castToString ∧
     demoSaved.contractAddress
        = asciiLower demoPayload.contractAddress.castToString ∧
     (∃ tx, demoPayload.transactionHash = .strV tx ∧
        demoSaved.transactionHash = asciiLower tx)) ∧
    (saveNFT [demoSaved] demoPayload 2000).1 = .alreadyRecorded demoSaved ∧
    getUserNFTCount store15 addrAUp = getUserNFTCount store15 addrA := by
  have h := c5_lowercase_identity [] demoPayload 1000 demoSaved 1 true
    [demoSaved] (by decide)
  exact ⟨h.1,
    h.2.2.1 demoPayload 2000 txAUp rfl (by decide) (by decide),
    h.2.2.2 store15 addrAUp addrA (by decide)⟩

/-! ## Helper lemmas for sorting and membership -/

/-- Membership is preserved by the descending insertion. -/
theorem mem_insertByCreatedAt {a r : NFTRecord} {l : List NFTRecord} :
    a ∈ insertByCreatedAt r l ↔ a = r ∨ a ∈ l := by
  induction l with
  | nil => simp [insertByCreatedAt]
  | cons x xs ih =>
    rw [insertByCreatedAt]
    split
    · simp [List.mem_cons]
    · simp only [List.mem_cons, ih]
      tauto

/-- Sorting by createdAt is a permutation as far as membership goes. -/
theorem mem_sortByCreatedAtDesc {a : NFTRecord} {l : List NFTRecord} :
    a ∈ sortByCreatedAtDesc l ↔ a ∈ l := by
  induction l with
  | nil => simp [sortByCreatedAtDesc]
  | cons x xs ih =>
    simp only [sortByCreatedAtDesc, List.foldr_cons, mem_insertByCreatedAt,
      List.mem_cons]
    rw [← sortByCreatedAtDesc, ih]

/-- The owner count is the length of the owner's confirmed-record list. -/
theorem getUserNFTCount_eq_length (store : List NFTRecord) (a : String) :
    getUserNFTCount store a = (ownerConfirmed store a).length := rfl

/-! ## Concrete page fixture for the pagination witnesses -/

/-- The page `getUserNFTs store15 addrA 2 10 5000` returns: the five
oldest records, newest first. -/
def demoPage : List EnrichedNFT :=
  (List.range 5).map fun i => enrichNFT 5000 (mkRec (4 - i)).toPublic

/-- The pagination metadata of that same request. -/
def demoPagination : Pagination :=
  { currentPage := 2
    totalPages := 2
    totalCount := 15
    hasNextPage := false
    hasPrevPage := true
    limit := 10 }

/-! ## C3 — pagination arithmetic and the returned slice -/

/-- C3: for positive `page` and `limit` and a well-formed owner address,
the handler returns the slice of the createdAt-descending confirmed
records starting at offset `(page-1)*limit`, of length at most `limit`;
`totalPages` is the ceiling division of the owner's confirmed count by
`limit` (characterized by its Galois property: `totalPages ≤ m` iff
`totalCount ≤ limit * m`); `hasNextPage` is `page < totalPages` and
`hasPrevPage` is `page > 1`. -/
theorem c3_pagination (store : List NFTRecord) (owner : String)
    (page limit : Nat) (now : Int)
    (hp : 1 ≤ page) (hl : 1 ≤ limit) (haddr : isEthAddress owner = true) :
    ∃ pg : Pagination,
      getUserNFTs store owner page limit now =
        .ok ((((sortByCreatedAtDesc (ownerConfirmed store owner)).drop
            ((page - 1) * limit)).take limit).map
            (fun r => enrichNFT now r.toPublic)) pg ∧
      ((((sortByCreatedAtDesc (ownerConfirmed store owner)).drop
          ((page - 1) * limit)).take limit).map
          (fun r => enrichNFT now r.toPublic)).length ≤ limit ∧
      pg.totalCount = (ownerConfirmed store owner).length ∧
      pg.totalPages = pg.totalCount ⌈/⌉ limit ∧
      (∀ m : Nat, pg.totalPages ≤ m ↔ pg.totalCount ≤ limit * m) ∧
      pg.currentPage = page ∧
      pg.limit = limit ∧
      pg.hasNextPage = decide (page < pg.totalPages) ∧
      pg.hasPrevPage = decide (1 < page) := by
  have hl0 : (0 : ℕ) < limit := hl
  refine ⟨{ currentPage := page
            totalPages := ((ownerConfirmed store owner).length + limit - 1) / limit
            totalCount := (ownerConfirmed store owner).length
            hasNextPage := decide
              (page < ((ownerConfirmed store owner).length + limit - 1) / limit)
            hasPrevPage := decide (1 < page)
            limit := limit }, ?_, ?_, rfl, rfl, ?_, rfl, rfl, rfl, rfl⟩
  · unfold getUserNFTs
    rw [haddr]
    simp [getUserNFTCount_eq_length, List.map_map, Function.comp_def]
  · calc ((((sortByCreatedAtDesc (ownerConfirmed store owner)).drop
          ((page - 1) * limit)).take limit).map
          (fun r => enrichNFT now r.toPublic)).length
        = (((sortByCreatedAtDesc (ownerConfirmed store owner)).drop
          ((page - 1) * limit)).take limit).length := List.length_map _ _
      _ ≤ limit := List.length_take_le _ _
  · intro m
    exact ceilDiv_le_iff_le_mul hl0

/-- C3 witness: fifteen confirmed records, `page = 2`, `limit = 10`
return five records with `totalPages = 2`, `hasNextPage = false`,
`hasPrevPage = true`, and the ceiling characterization holds. -/
theorem c3_witness :
    getUserNFTs store15 addrA 2 10 5000 = .ok demoPage demoPagination ∧
    demoPage.length = 5 ∧
    demoPagination.totalPages = 2 ∧
    demoPagination.hasNextPage = false ∧
    demoPagination.hasPrevPage = true ∧
    (∀ m : Nat, demoPagination.totalPages ≤ m ↔
      demoPagination.totalCount ≤ 10 * m) := by
  have hconc : getUserNFTs store15 addrA 2 10 5000
      = .ok demoPage demoPagination := by decide
  obtain ⟨pg, hrun, -, -, -, hchar, -, -, -, -⟩ :=
    c3_pagination store15 addrA 2 10 5000 (by decide) (by decide) (by decide)
  have hpg : pg = demoPagination := by
    rw [hconc] at hrun
    exact (ListResult.ok.injEq .. |>.mp hrun.symm).2
  refine ⟨hconc, by decide, by decide, by decide, by decide, ?_⟩
  rw [← hpg]
  simpa [hpg] using hchar

/-! ## C6 — event statistics grouping and grand totals -/

/-- C6: every row of the event statistics reports, for its event name,
`totalMints` equal to the number of confirmed records carrying that name
and `uniqueUserCount` equal to the number of distinct wallet addresses
among them; and the stats handler's grand totals are the sums of the
per-group `totalMints` and per-group distinct-owner counts. -/
theorem c6_event_stats (store : List NFTRecord) (s : EventStat)
    (hs : s ∈ getEventStats store) :
    s.totalMints = store.countP
      (fun r => r.status == NFTStatus.confirmed &&
        r.eventName == s.eventName) ∧
    s.uniqueUserCount = ((store.filter
      (fun r => r.status == NFTStatus.confirmed &&
        r.eventName == s.eventName)).map
      (fun r => r.walletAddress)).toFinset.card ∧
    (getEventStatsHandler store).totalMints
      = ((getEventStats store).map EventStat.totalMints).sum ∧
    (getEventStatsHandler store).totalUniqueUsers
      = ((getEventStats store).map EventStat.uniqueUserCount).sum := by
  have hfoldl : ∀ (f : EventStat → Nat) (l : List EventStat) (n : Nat),
      l.foldl (fun acc e => acc + f e) n = n + (l.map f).sum := by
    intro f l
    induction l with
    | nil => intro n; simp
    | cons x xs ih => intro n; simp [List.foldl_cons, ih, Nat.add_assoc]
  have hswap : store.filter
        (fun r => (r.eventName == s.eventName) &&
          (r.status == NFTStatus.confirmed))
      = store.filter
        (fun r => (r.status == NFTStatus.confirmed) &&
          (r.eventName == s.eventName)) :=
    List.filter_congr (fun a _ => Bool.and_comm _ _)
  simp only [getEventStats, List.mem_map] at hs
  obtain ⟨name, -, hseq⟩ := hs
  subst hseq
  refine ⟨?_, ?_, ?_, ?_⟩
  · rw [List.countP_eq_length_filter, ← hswap, ← List.filter_filter]
  · rw [List.card_toFinset, ← hswap, ← List.filter_filter]
  · simp [getEventStatsHandler, hfoldl]
  · simp [getEventStatsHandler, hfoldl]

/-- Second test owner. -/
def addrB : String := "0xbbbbbbbbbbbbbbbbbbbbbbbbbbbbbbbbbbbbbbbb"

/-- Third test owner. -/
def addrC : String := "0xcccccccccccccccccccccccccccccccccccccccc"

/-- A confirmed record for `owner` at event `ev`, minted/created at `i`. -/
def mkEventRec (owner ev : String) (i : Nat) : NFTRecord :=
  { demoSaved with
    walletAddress := owner
    eventName := ev
    mintedAt := (i : Int)
    createdAt := (i : Int)
    tokenId := toString i }

/-- Event A: three mints by two distinct owners; event B: one mint. -/
def statsStore : List NFTRecord :=
  [mkEventRec addrA "A" 0, mkEventRec addrA "A" 1, mkEventRec addrB "A" 2,
   mkEventRec addrC "B" 3]

/-- Expected statistics row for event A. -/
def statA : EventStat :=
  { eventName := "A", totalMints := 3, uniqueUserCount := 2,
    firstMint := 0, lastMint := 2 }

/-- Expected statistics row for event B. -/
def statB : EventStat :=
  { eventName := "B", totalMints := 1, uniqueUserCount := 1,
    firstMint := 3, lastMint := 3 }

/-- C6 witness: the spec's example — A: 3 mints by 2 owners, B: 1 mint —
with grand totals 4 and 3; the A row through the theorem. -/
theorem c6_witness :
    (getEventStatsHandler statsStore).totalMints = 4 ∧
    (getEventStatsHandler statsStore).totalUniqueUsers = 3 ∧
    getEventStats statsStore = [statA, statB] ∧
    (statA.totalMints = statsStore.countP
      (fun r => r.status == NFTStatus.confirmed &&
        r.eventName == statA.eventName) ∧
     statA.uniqueUserCount = ((statsStore.filter
      (fun r => r.status == NFTStatus.confirmed &&
        r.eventName == statA.eventName)).map
      (fun r => r.walletAddress)).toFinset.card ∧
     (getEventStatsHandler statsStore).totalMints
      = ((getEventStats statsStore).map EventStat.totalMints).sum ∧
     (getEventStatsHandler statsStore).totalUniqueUsers
      = ((getEventStats statsStore).map EventStat.uniqueUserCount).sum) :=
  ⟨by decide, by decide, by decide, c6_event_stats statsStore statA (by decide)⟩

/-! ## C8 — derived read-time fields of the list response -/

/-- C8: every record in a list-by-owner response is a stored record (the
derived fields are not persisted: they live only in the enriched response,
whose `record` component is a projection of a store element), and carries
exactly three computed fields: the gateway URL built from its CID, a
block-explorer URL on the mainnet host precisely when `networkChainId` is
8453 and on the testnet host otherwise, and `daysAgo` equal to the floor
of the elapsed time since `mintedAt` divided by one day. -/
theorem c8_enriched_fields (store : List NFTRecord) (owner : String)
    (page limit : Nat) (now : Int) (nfts : List EnrichedNFT)
    (pg : Pagination)
    (h : getUserNFTs store owner page limit now = .ok nfts pg) :
    ∀ e ∈ nfts,
      (∃ r ∈ store, r.toPublic = e.record) ∧
      e.pinataImageUrl = pinataUrlOf e.record.ipfsCid ∧
      (e.blockExplorerUrl
          = "https://basescan.org/tx/" ++ e.record.transactionHash
        ↔ e.record.networkChainId = 8453) ∧
      (e.record.networkChainId ≠ 8453 →
        e.blockExplorerUrl
          = "https://sepolia.basescan.org/tx/" ++ e.record.transactionHash) ∧
      e.daysAgo = Int.fdiv (now - e.record.mintedAt) 86400000 := by
  have hne : ∀ s : String,
      "https://sepolia.basescan.org/tx/" ++ s ≠ "https://basescan.org/tx/" ++ s := by
    intro s he
    have hlen := congrArg String.length he
    rw [String.length_append, String.length_append] at hlen
    have h1 : ("https://sepolia.basescan.org/tx/").length = 32 := by decide
    have h2 : ("https://basescan.org/tx/").length = 24 := by decide
    omega
  unfold getUserNFTs at h
  by_cases haddr : isEthAddress owner = true
  · rw [haddr] at h
    simp only [Bool.not_true, Bool.false_eq_true, if_false] at h
    rw [ListResult.ok.injEq] at h
    obtain ⟨hnfts, -⟩ := h
    intro e he
    rw [← hnfts, List.map_map, List.mem_map] at he
    obtain ⟨r0, hr0mem, hr0⟩ := he
    have hr0store : r0 ∈ store := by
      have h1 := List.mem_of_mem_take hr0mem
      have h2 := List.mem_of_mem_drop h1
      have h3 := mem_sortByCreatedAtDesc.mp h2
      exact List.mem_of_mem_filter h3
    subst hr0
    simp only [Function.comp_apply]
    refine ⟨⟨r0, hr0store, rfl⟩, rfl, ?_, ?_, rfl⟩
    · by_cases hc : r0.toPublic.networkChainId = 8453
      · have hcb : (r0.toPublic.networkChainId == 8453) = true := by simp [hc]
        refine ⟨fun _ => hc, fun _ => ?_⟩
        simp [enrichNFT, hcb]
      · have hcb : (r0.toPublic.networkChainId == 8453) = false := by simp [hc]
        constructor
        · intro habs
          rw [show (enrichNFT now r0.toPublic).blockExplorerUrl
              = "https://sepolia.basescan.org/tx/"
                ++ r0.toPublic.transactionHash from by
            simp [enrichNFT, hcb]] at habs
          exact absurd habs (hne _)
        · intro habs
          exact absurd habs hc
    · intro hcne
      have hcne2 : r0.toPublic.networkChainId ≠ 8453 := by
        simpa [enrichNFT] using hcne
      have hcb : (r0.toPublic.networkChainId == 8453) = false := by simp [hcne2]
      simp [enrichNFT, hcb]
  · have haddr' : isEthAddress owner = false := by
      simpa using haddr
    rw [haddr'] at h
    simp at h

/-- C8 witness: the newest record of the page `getUserNFTs store15 addrA
2 10 5000` returns, with all three derived fields checked through the
theorem. -/
theorem c8_witness :
    (∃ r ∈ store15, r.toPublic = (enrichNFT 5000 (mkRec 4).toPublic).record) ∧
    (enrichNFT 5000 (mkRec 4).toPublic).pinataImageUrl
      = pinataUrlOf (enrichNFT 5000 (mkRec 4).toPublic).record.ipfsCid ∧
    ((enrichNFT 5000 (mkRec 4).toPublic).blockExplorerUrl
        = "https://basescan.org/tx/"
          ++ (enrichNFT 5000 (mkRec 4).toPublic).record.transactionHash
      ↔ (enrichNFT 5000 (mkRec 4).toPublic).record.networkChainId = 8453) ∧
    ((enrichNFT 5000 (mkRec 4).toPublic).record.networkChainId ≠ 8453 →
      (enrichNFT 5000 (mkRec 4).toPublic).blockExplorerUrl
        = "https://sepolia.basescan.org/tx/"
          ++ (enrichNFT 5000 (mkRec 4).toPublic).record.transactionHash) ∧
    (enrichNFT 5000 (mkRec 4).toPublic).daysAgo
      = Int.fdiv (5000 - (enrichNFT 5000 (mkRec 4).toPublic).record.mintedAt)
          86400000 :=
  c8_enriched_fields store15 addrA 2 10 5000 demoPage demoPagination
    (by decide) (enrichNFT 5000 (mkRec 4).toPublic) (by decide)

end OnchainSummer
